import Mathlib

/-!
Verification development for the `myst-demo` repository: a single Jupyter
notebook (`02-notebook.ipynb`) that demonstrates an interactive altair chart,
a matplotlib time-series histogram built from simulated data, and a leafmap
split map of two remote rasters.

The development has two layers:

* a structural embedding of the notebook itself (the exact cell sources as
  strings, with decidable substring / identifier-occurrence checks), used for
  claims about labels, URLs, error handling and cross-cell data flow;

* a numeric embedding of the data-generation cell over `ℚ` (floating point
  idealised as exact rationals; `np.sin`, `np.sqrt`, `np.pi` and the Gaussian
  draws abstracted as parameters, since their values are irrelevant to the
  claims), used for claims about shapes, the sinusoidal overwrite and the
  interpolation pipeline.
-/

set_option maxRecDepth 200000

/-! ## String utilities (decidable substring and identifier search)

These are deliberately built by structural recursion on character lists, so
that every check below kernel-evaluates under `decide`. -/

/-- Is `pat` a prefix of `s` (on character lists)? -/
def isPrefixL : List Char → List Char → Bool
  | [], _ => true
  | _ :: _, [] => false
  | a :: as, b :: bs => a == b && isPrefixL as bs

/-- Does `pat` occur as a contiguous substring of `s`? -/
def containsL (pat : List Char) : List Char → Bool
  | [] => isPrefixL pat []
  | s@(_ :: rest) => isPrefixL pat s || containsL pat rest

/-- Does `pat` occur as a substring of `s`? -/
def strContains (s pat : String) : Bool := containsL pat.data s.data

/-- Does `pat` occur at the end of `s`? -/
def endsWithL (pat s : List Char) : Bool := isPrefixL pat.reverse s.reverse

/-- Split `s` at every occurrence of the separator `sep` (fuel-bounded
structural recursion; any `fuel ≥ s.length` gives the full split). -/
def splitOnFuel (sep : List Char) : Nat → List Char → List (List Char)
  | 0, s => [s]
  | _ + 1, [] => [[]]
  | fuel + 1, c :: rest =>
      if isPrefixL sep (c :: rest) then
        [] :: splitOnFuel sep fuel (rest.drop (sep.length - 1))
      else
        match splitOnFuel sep fuel rest with
        | [] => [[c]]
        | h :: t => (c :: h) :: t

/-- Split a string at every occurrence of the (nonempty) separator. -/
def splitOnS (s sep : String) : List String :=
  (splitOnFuel sep.data s.data.length s.data).map fun l => ⟨l⟩

/-- Characters that can appear in a Python identifier. -/
def isIdentChar (c : Char) : Bool := c.isAlphanum || c == '_'

/-- Is `s` a plain Python identifier? -/
def isIdent (s : String) : Bool :=
  match s.data with
  | [] => false
  | c :: cs => !c.isDigit && (c :: cs).all isIdentChar

/-- `pat` occurs at the head of `s` and is not followed by an identifier
character (so the occurrence is a whole identifier, not a fragment). -/
def identAt (pat s : List Char) : Bool :=
  isPrefixL pat s &&
    (match s.drop pat.length with
     | [] => true
     | c :: _ => !(isIdentChar c))

/-- Scan `s` for a whole-identifier occurrence of `pat`; `bnd` records whether
the current position sits at an identifier boundary. -/
def identOccursAux (pat : List Char) : List Char → Bool → Bool
  | [], _ => false
  | s@(c :: rest), bnd =>
      (bnd && identAt pat s) || identOccursAux pat rest (!(isIdentChar c))

/-- Does `pat` occur in `l` as a whole identifier (not as a fragment of a
longer identifier)? -/
def identOccurs (pat l : String) : Bool := identOccursAux pat.data l.data true

/-- Strip a Python source line down to its code: the contents of
double-quoted string literals are removed (the quotes remain) and everything
from a `#` outside a string literal on is dropped. -/
def codeOnlyAux : List Char → Bool → List Char
  | [], _ => []
  | c :: rest, inStr =>
      if inStr then
        if c == '"' then c :: codeOnlyAux rest false else codeOnlyAux rest true
      else if c == '"' then c :: codeOnlyAux rest true
      else if c == '#' then []
      else c :: codeOnlyAux rest false

/-- The code part of a Python source line (comments and string-literal
contents removed). -/
def codeOnly (l : String) : String := ⟨codeOnlyAux l.data false⟩

/-! ## Notebook structure -/

/-- The type of a notebook cell. -/
inductive CellType
  | markdown
  | code
deriving DecidableEq

/-- A notebook cell: its type and its source, line by line (text exactly as
in `02-notebook.ipynb`, without trailing newlines). -/
structure Cell where
  ctype : CellType
  lines : List String
deriving DecidableEq

/-- Does some source line of the cell contain `pat` as a substring? -/
def Cell.mentionsSub (c : Cell) (pat : String) : Bool :=
  c.lines.any fun l => strContains l pat

/-- Does some source line of the cell contain `pat` as a whole identifier? -/
def Cell.mentionsIdent (c : Cell) (pat : String) : Bool :=
  c.lines.any fun l => identOccurs pat l

/-- Does `pat` occur as a whole identifier in the cell's code, comments and
string-literal contents excluded? -/
def Cell.mentionsCodeIdent (c : Cell) (pat : String) : Bool :=
  c.lines.any fun l => identOccurs pat (codeOnly l)

/-- Cell 0: the markdown front-matter and introduction. -/
def cell0 : Cell :=
  ⟨.markdown,
   ["---",
    "title: Linking Interactive Notebooks",
    "subtitle: Evolve markdown documents and notebooks into structured data",
    "author:",
    "  - name: Rowan Cockett",
    "    affiliations: Executable Books; Curvenote",
    "    orcid: 0000-0002-7859-8394",
    "    email: rowan@curvenote.com",
    "license:",
    "  code: MIT",
    "date: 2023-01-23",
    "---",
    "",
    "MyST allows you to directly include Jupyter Notebooks in your books, documents and websites.",
    "This Jupyter Notebook can be rendered directly using MyST.",
    "",
    "For example, let us import `altair` and create a demo of an interactive plot!"]⟩

/-- Cell 1: the altair chart construction. -/
def cell1 : Cell :=
  ⟨.code,
   ["import altair as alt",
    "from vega_datasets import data",
    "",
    "source = data.cars()",
    "brush = alt.selection_interval(encodings=[\"x\"])",
    "points = (",
    "    alt.Chart(source)",
    "    .mark_point()",
    "    .encode(",
    "        x=\"Horsepower:Q\",",
    "        y=\"Miles_per_Gallon:Q\",",
    "        size=\"Acceleration\",",
    "        color=alt.condition(brush, \"Origin:N\", alt.value(\"lightgray\")),",
    "    )",
    "    .add_selection(brush)",
    ")",
    "",
    "bars = (",
    "    alt.Chart(source)",
    "    .mark_bar()",
    "    .encode(y=\"Origin:N\", color=\"Origin:N\", x=\"count(Origin):Q\")",
    "    .transform_filter(brush)",
    ")"]⟩

/-- Cell 2: markdown introducing the interactive plot. -/
def cell2 : Cell :=
  ⟨.markdown,
   ["We can now plot the altair example, which is fully interactive, try dragging in the plot to select cars by their horsepower."]⟩

/-- Cell 3: the labelled display of the altair chart. -/
def cell3 : Cell :=
  ⟨.code,
   ["# | label: horsepower",
    "points & bars"]⟩

/-- Cell 4: imports for the histogram example. -/
def cell4 : Cell :=
  ⟨.code,
   ["# https://matplotlib.org/stable/gallery/statistics/time_series_histogram.html#sphx-glr-gallery-statistics-time-series-histogram-py",
    "from copy import copy",
    "",
    "import numpy as np",
    "import numpy.matlib",
    "import matplotlib.pyplot as plt",
    "from matplotlib.colors import LogNorm"]⟩

/-- Cell 5: markdown cross-reference to the chart output. -/
def cell5 : Cell :=
  ⟨.markdown,
   ["Here we reference [plot output](#horsepower)"]⟩

/-- Cell 6: the data-generation cell (random walks, sinusoids, interpolation). -/
def cell6 : Cell :=
  ⟨.code,
   ["# Make some data; a 1D random walk + small fraction of sine waves",
    "num_series = 1000",
    "num_points = 100",
    "SNR = 0.10  # Signal to Noise Ratio",
    "x = np.linspace(0, 4 * np.pi, num_points)",
    "# Generate unbiased Gaussian random walks",
    "Y = np.cumsum(np.random.randn(num_series, num_points), axis=-1)",
    "# Generate sinusoidal signals",
    "num_signal = int(round(SNR * num_series))",
    "phi = (np.pi / 8) * np.random.randn(num_signal, 1)  # small random offset",
    "Y[-num_signal:] = np.sqrt(np.arange(num_points))[",
    "    None, :",
    "] * (  # random walk RMS scaling factor",
    "    np.sin(x[None, :] - phi) + 0.05 * np.random.randn(num_signal, num_points)",
    ")  # small random noise",
    "",
    "",
    "# Now we will convert the multiple time series into a histogram. Not only will",
    "# the hidden signal be more visible, but it is also a much quicker procedure.",
    "# Linearly interpolate between the points in each time series",
    "num_fine = 800",
    "x_fine = np.linspace(x.min(), x.max(), num_fine)",
    "y_fine = np.empty((num_series, num_fine), dtype=float)",
    "for i in range(num_series):",
    "    y_fine[i, :] = np.interp(x_fine, x, Y[i, :])",
    "y_fine = y_fine.flatten()",
    "x_fine = np.matlib.repmat(x_fine, num_series, 1).flatten()"]⟩

/-- Cell 7: markdown warning that the data is simulated. -/
def cell7 : Cell :=
  ⟨.markdown,
   ["Important!",
    "This data is simulated, and may just be random noise! 🔊"]⟩

/-- Cell 8: the labelled histogram figure cell. -/
def cell8 : Cell :=
  ⟨.code,
   ["# | label: plasma",
    "fig, axes = plt.subplots(figsize=(8, 4), constrained_layout=True)",
    "cmap = copy(plt.cm.plasma)",
    "cmap.set_bad(cmap(0))",
    "h, xedges, yedges = np.histogram2d(x_fine, y_fine, bins=[400, 100])",
    "pcm = axes.pcolormesh(",
    "    xedges, yedges, h.T, cmap=cmap, norm=LogNorm(vmax=1.5e2), rasterized=True",
    ")",
    "fig.colorbar(pcm, ax=axes, label=\"# points\", pad=0)",
    "axes.set_title(\"2d histogram and log color scale\");"]⟩

/-- Cell 9: the leafmap import. -/
def cell9 : Cell :=
  ⟨.code,
   ["import leafmap.foliumap as leafmap"]⟩

/-- Cell 10: the map cell with the split map of two remote rasters. -/
def cell10 : Cell :=
  ⟨.code,
   ["m = leafmap.Map(height=600, center=[39.4948, -108.5492], zoom=12)",
    "url = \"https://github.com/opengeos/data/releases/download/raster/Libya-2023-07-01.tif\"",
    "url2 = \"https://github.com/opengeos/data/releases/download/raster/Libya-2023-09-13.tif\"",
    "m.split_map(url, url2)",
    "m"]⟩

/-- Cell 11: the trailing empty code cell. -/
def cell11 : Cell := ⟨.code, []⟩

/-- The whole notebook, in execution order. -/
def notebookCells : List Cell :=
  [cell0, cell1, cell2, cell3, cell4, cell5, cell6, cell7, cell8, cell9,
   cell10, cell11]

example : strContains "m.split_map(url, url2)" "split_map(url, url2)" = true := by decide
example : identOccurs "points" "num_points = 100" = false := by decide
example : identOccurs "points" "points & bars" = true := by decide
example : cell8.mentionsIdent "x_fine" = true := by decide
example : cell10.mentionsIdent "x_fine" = false := by decide

/-! ## Derived notebook analysis -/

/-- Count occurrences of `pat` in a character list. -/
def countOccursL (pat : List Char) : List Char → Nat
  | [] => 0
  | s@(_ :: rest) => (if isPrefixL pat s then 1 else 0) + countOccursL pat rest

/-- Count occurrences of `pat` in `s`. -/
def countOccurs (s pat : String) : Nat := countOccursL pat.data s.data

/-- Total occurrences of `pat` in a cell's source. -/
def Cell.countSub (c : Cell) (pat : String) : Nat :=
  (c.lines.map fun l => countOccurs l pat).sum

/-- Total occurrences of `pat` across the whole notebook. -/
def notebookCount (pat : String) : Nat :=
  (notebookCells.map fun c => c.countSub pat).sum

/-- Indices of the cells whose source contains `pat` as a substring. -/
def cellsMentioningSub (pat : String) : List Nat :=
  notebookCells.enum.filterMap fun ic =>
    if ic.2.mentionsSub pat then some ic.1 else none

/-- Assignment targets of one source line: the identifiers to the left of a
top-level ` = ` (tuple targets are split on `, `; subscripted targets such as
`Y[-num_signal:]` are not plain identifiers and yield nothing). -/
def assignTargetsLine (l : String) : List String :=
  match splitOnS l " = " with
  | tgt :: _ :: _ => (splitOnS tgt ", ").filter isIdent
  | _ => []

/-- Keep the first occurrence of each string. -/
def dedupKeepFirstAux : List String → List String → List String
  | [], _ => []
  | a :: rest, seen =>
      if seen.contains a then dedupKeepFirstAux rest seen
      else a :: dedupKeepFirstAux rest (a :: seen)

/-- The notebook-level variables a cell assigns, in first-assignment order. -/
def Cell.assignTargets (c : Cell) : List String :=
  dedupKeepFirstAux ((c.lines.map assignTargetsLine).flatten) []

/-- All cross-cell data dependencies: triples `(i, j, v)` where code cell `i`
assigns variable `v` and the later code cell `j` mentions `v` in its code. -/
def crossCellDeps : List (Nat × Nat × String) :=
  notebookCells.enum.flatMap fun ic =>
    notebookCells.enum.flatMap fun jc =>
      if ic.2.ctype = CellType.code ∧ jc.2.ctype = CellType.code ∧
          ic.1 < jc.1 then
        (ic.2.assignTargets.filter fun v => jc.2.mentionsCodeIdent v).map
          fun v => (ic.1, jc.1, v)
      else []

/-- The marker MyST recognises at the start of a labelled cell. -/
def labelMarker : String := "# | label: "

/-- The output label of a cell, when its first line carries the marker. -/
def Cell.cellLabel (c : Cell) : Option String :=
  match c.lines with
  | l :: _ =>
      if isPrefixL labelMarker.data l.data then
        some ⟨l.data.drop labelMarker.data.length⟩
      else none
  | [] => none

/-- All labelled cells of the notebook, as `(index, label)` pairs. -/
def labelledCells : List (Nat × String) :=
  notebookCells.enum.filterMap fun ic =>
    (ic.2.cellLabel).map fun s => (ic.1, s)

/-- Lines referencing a remote raster: they contain both `https://` and
`.tif`, paired with the index of the cell they belong to. -/
def rasterRefs : List (Nat × String) :=
  notebookCells.enum.flatMap fun ic =>
    (ic.2.lines.filter fun l =>
      strContains l "https://" && strContains l ".tif").map fun l => (ic.1, l)

/-- Does the cell contain any Python error-handling or recovery construct? -/
def Cell.hasErrorHandling (c : Cell) : Bool :=
  c.mentionsCodeIdent "try" || c.mentionsCodeIdent "except" ||
  c.mentionsCodeIdent "finally" || c.mentionsCodeIdent "raise" ||
  c.mentionsCodeIdent "retry" || c.mentionsCodeIdent "fallback"


/-! ## Numeric embedding of the data-generation cell

numpy arrays are embedded as a shape together with a total entry function;
float arithmetic is idealised as exact rational arithmetic, and `np.pi`,
`np.sin`, `np.sqrt` and the three `np.random.randn` draws of the cell are
abstracted as parameters (`SimParams`), since every claim holds for, or is
refuted for, arbitrary values of them. -/

/-- A one-dimensional numpy array: a length and an entry function (only the
first `n` entries are meaningful). -/
structure Vec where
  n : Nat
  entry : Nat → ℚ

/-- A two-dimensional numpy array. -/
structure Mat where
  rows : Nat
  cols : Nat
  entry : Nat → Nat → ℚ

/-- `np.linspace(a, b, num)` (with the default `endpoint=True`):
`num` evenly spaced samples from `a` to `b`. -/
def linspace (a b : ℚ) (num : Nat) : Vec :=
  ⟨num, fun i => a + (b - a) * i / ((num : ℚ) - 1)⟩

/-- The meaningful entries of a vector, as a list. -/
def Vec.toList (v : Vec) : List ℚ := (List.range v.n).map v.entry

/-- `v.min()`: the least entry of the array. -/
def Vec.minVal (v : Vec) : ℚ :=
  match v.toList with
  | [] => 0
  | a :: rest => rest.foldl min a

/-- `v.max()`: the greatest entry of the array. -/
def Vec.maxVal (v : Vec) : ℚ :=
  match v.toList with
  | [] => 0
  | a :: rest => rest.foldl max a

/-- `np.cumsum(m, axis=-1)`: prefix sums along each row. -/
def Mat.cumsumRows (m : Mat) : Mat :=
  ⟨m.rows, m.cols, fun i j => ∑ k ∈ Finset.range (j + 1), m.entry i k⟩

/-- The slice assignment `m[-k:] = b`: the last `k` rows of `m` are replaced
by the rows of `b` (row `s` of `b` lands at row `m.rows - k + s`). -/
def Mat.setLastRows (m : Mat) (k : Nat) (b : Nat → Nat → ℚ) : Mat :=
  ⟨m.rows, m.cols, fun i j =>
    if m.rows - k ≤ i then b (i - (m.rows - k)) j else m.entry i j⟩

/-- `m.flatten()`: row-major flattening. -/
def Mat.flatten (m : Mat) : Vec :=
  ⟨m.rows * m.cols, fun k => m.entry (k / m.cols) (k % m.cols)⟩

/-- `np.matlib.repmat(v, r, 1)` for a 1-D `v`: `r` copies of `v` stacked as
the rows of an `r × v.n` matrix. -/
def repmat (v : Vec) (r : Nat) : Mat :=
  ⟨r, v.n, fun _ j => v.entry j⟩

/-- The largest index `i ≤ k` with `xp i ≤ q`, or `0` when there is none:
the segment of the sample grid that `np.interp` interpolates on. -/
def findSeg (xp : Nat → ℚ) (q : ℚ) : Nat → Nat
  | 0 => 0
  | k + 1 => if xp (k + 1) ≤ q then k + 1 else findSeg xp q k

/-- The query `q` lies outside the sample interval, so `np.interp` would take
its clamping branch (returning `fp[0]` resp. `fp[n-1]` unmodified). -/
def interpExtrapolates (q : ℚ) (xp : Vec) : Prop :=
  q < xp.entry 0 ∨ xp.entry (xp.n - 1) < q

instance (q : ℚ) (xp : Vec) : Decidable (interpExtrapolates q xp) := by
  unfold interpExtrapolates
  infer_instance

/-- `np.interp(q, xp, fp)` for an increasing sample grid `xp`: clamp outside
the sampled interval, linear interpolation on the enclosing segment inside. -/
def interp (q : ℚ) (xp : Vec) (fp : Nat → ℚ) : ℚ :=
  if q < xp.entry 0 then fp 0
  else if xp.entry (xp.n - 1) < q then fp (xp.n - 1)
  else
    let i := findSeg xp.entry q (xp.n - 2)
    fp i + (fp (i + 1) - fp i) * (q - xp.entry i) /
      (xp.entry (i + 1) - xp.entry i)

/-- Is `q` in bin `a` of the `nbins` bins with the given edges?  numpy bins
are right-open except the last, which includes its right edge. -/
def inBin (edges : Vec) (nbins a : Nat) (q : ℚ) : Bool :=
  decide (edges.entry a ≤ q) &&
    (if a + 1 = nbins then decide (q ≤ edges.entry nbins)
     else decide (q < edges.entry (a + 1)))

/-- `np.histogram2d(xs, ys, bins=[nx, ny])`: bin edges are `nx + 1` (resp.
`ny + 1`) evenly spaced values spanning the data, and entry `(a, b)` counts
the points `(xs[k], ys[k])` falling in bin `(a, b)`. -/
def histogram2d (xs ys : Vec) (nx ny : Nat) : Mat :=
  ⟨nx, ny, fun a b =>
    (((List.range xs.n).filter fun k =>
        inBin (linspace xs.minVal xs.maxVal (nx + 1)) nx a (xs.entry k) &&
        inBin (linspace ys.minVal ys.maxVal (ny + 1)) ny b (ys.entry k)).length : ℚ)⟩

/-- The abstract inputs of the data-generation cell: a rational model of
`np.pi`, `np.sin`, `np.sqrt`, and the three `np.random.randn` draws. -/
structure SimParams where
  pi : ℚ
  sin : ℚ → ℚ
  sqrt : ℚ → ℚ
  walkNoise : Nat → Nat → ℚ
  phiNoise : Nat → ℚ
  sigNoise : Nat → Nat → ℚ

namespace Sim

/-- `num_series = 1000` -/
def num_series : Nat := 1000

/-- `num_points = 100` -/
def num_points : Nat := 100

/-- `SNR = 0.10` -/
def SNR : ℚ := 0.10

/-- `x = np.linspace(0, 4 * np.pi, num_points)` -/
def x (p : SimParams) : Vec := linspace 0 (4 * p.pi) num_points

/-- `Y = np.cumsum(np.random.randn(num_series, num_points), axis=-1)`:
the matrix of Gaussian random walks, before the sinusoidal overwrite. -/
def walkY (p : SimParams) : Mat :=
  (Mat.mk num_series num_points p.walkNoise).cumsumRows

/-- `num_signal = int(round(SNR * num_series))` -/
def num_signal : Nat := (round (SNR * (num_series : ℚ))).toNat

/-- `phi = (np.pi / 8) * np.random.randn(num_signal, 1)` -/
def phi (p : SimParams) (s : Nat) : ℚ := p.pi / 8 * p.phiNoise s

/-- The right-hand side of the sinusoidal overwrite, at signal row `s` and
sample `j`:
`np.sqrt(np.arange(num_points))[None, :] * (np.sin(x[None, :] - phi) + 0.05 *
np.random.randn(num_signal, num_points))`. -/
def signalRows (p : SimParams) (s j : Nat) : ℚ :=
  p.sqrt j * (p.sin ((x p).entry j - phi p s) + 0.05 * p.sigNoise s j)

/-- `Y` after `Y[-num_signal:] = ...`: the matrix actually interpolated. -/
def Y (p : SimParams) : Mat := (walkY p).setLastRows num_signal (signalRows p)

/-- `num_fine = 800` -/
def num_fine : Nat := 800

/-- `x_fine = np.linspace(x.min(), x.max(), num_fine)` (the common grid,
before the `repmat` reassignment). -/
def x_fine (p : SimParams) : Vec :=
  linspace ((x p).minVal) ((x p).maxVal) num_fine

/-- `y_fine` as filled by the loop
`for i in range(num_series): y_fine[i, :] = np.interp(x_fine, x, Y[i, :])`,
before the `flatten` reassignment. -/
def y_fine_mat (p : SimParams) : Mat :=
  ⟨num_series, num_fine, fun i k =>
    interp ((x_fine p).entry k) (x p) fun j => (Y p).entry i j⟩

/-- `y_fine = y_fine.flatten()` -/
def y_fine (p : SimParams) : Vec := (y_fine_mat p).flatten

/-- `x_fine = np.matlib.repmat(x_fine, num_series, 1).flatten()` -/
def x_fine_flat (p : SimParams) : Vec := (repmat (x_fine p) num_series).flatten

/-- `h, xedges, yedges = np.histogram2d(x_fine, y_fine, bins=[400, 100])`:
the counts matrix of the histogram cell. -/
def h (p : SimParams) : Mat := histogram2d (x_fine_flat p) (y_fine p) 400 100

end Sim

/-- A concrete instantiation of the abstract inputs, used by witnesses:
`pi` a positive rational approximation of π, trivial transcendental
functions, all draws equal to `1`. -/
def demoParams : SimParams :=
  ⟨355 / 113, fun _ => 0, fun _ => 0, fun _ _ => 1, fun _ => 1, fun _ _ => 1⟩


/-! ## The altair chart cell, structured

The encodings of the two charts of cell 1, transcribed from the source. -/

/-- An altair encoding value: a plain field reference, or an
`alt.condition(selection, fieldWhenSelected, alt.value(colourOtherwise))`. -/
inductive EncVal
  | field (f : String)
  | cond (selection onTrue offVal : String)
deriving DecidableEq

/-- The `points` chart's encodings (channel, value), in source order. -/
def pointsEncodings : List (String × EncVal) :=
  [("x", .field "Horsepower:Q"),
   ("y", .field "Miles_per_Gallon:Q"),
   ("size", .field "Acceleration"),
   ("color", .cond "brush" "Origin:N" "lightgray")]

/-- The `bars` chart's encodings (channel, value), in source order. -/
def barsEncodings : List (String × EncVal) :=
  [("y", .field "Origin:N"),
   ("color", .field "Origin:N"),
   ("x", .field "count(Origin):Q")]

/-- The dataset column a field reference names: the vega-lite type suffix
(`:Q`, `:N`) is stripped, and an aggregate `count(col)` names `col`. -/
def baseAttr (f : String) : String :=
  let s := (splitOnS f ":").headD f
  if isPrefixL "count(".data s.data && endsWithL ")".data s.data then
    ⟨(s.data.drop 6).dropLast⟩
  else s

/-- The dataset columns one encoding value reads. -/
def encAttrs : EncVal → List String
  | .field f => [baseAttr f]
  | .cond _ onTrue _ => [baseAttr onTrue]

/-- All dataset columns the combined chart reads, first occurrence first. -/
def chartAttrs : List String :=
  dedupKeepFirstAux
    (((pointsEncodings ++ barsEncodings).map fun ce => encAttrs ce.2).flatten) []

/-! ## A sequential cell executor -/

/-- Modelled from the spec: the notebook execution engine is external to this
repository ("notebook execution engines" are an explicit non-goal); the spec
says any failure "would propagate as an unhandled fault during notebook
execution".  Cells run in order; a raised exception stops the run and is
returned as-is, with no recovery and no rollback. -/
def runCells {σ ε : Type} : List (σ → Except ε σ) → σ → Except ε σ
  | [], s => .ok s
  | e :: rest, s =>
      match e s with
      | .ok s1 => runCells rest s1
      | .error err => .error err

/-! ## Helper lemmas -/

theorem foldl_min_eq_left {a : ℚ} {l : List ℚ} (h : ∀ b ∈ l, a ≤ b) :
    l.foldl min a = a := by
  induction l generalizing a with
  | nil => rfl
  | cons b t ih =>
      simp only [List.foldl_cons, min_eq_left (h b (List.mem_cons_self b t))]
      exact ih fun c hc => h c (List.mem_cons_of_mem b hc)

theorem le_foldl_max (a : ℚ) (l : List ℚ) : a ≤ l.foldl max a := by
  induction l generalizing a with
  | nil => exact le_refl a
  | cons b t ih =>
      simp only [List.foldl_cons]
      exact le_trans (le_max_left a b) (ih (max a b))

theorem foldl_max_le {a c : ℚ} {l : List ℚ} (ha : a ≤ c) (h : ∀ b ∈ l, b ≤ c) :
    l.foldl max a ≤ c := by
  induction l generalizing a with
  | nil => exact ha
  | cons b t ih =>
      simp only [List.foldl_cons]
      exact ih (max_le ha (h b (List.mem_cons_self b t)))
        fun d hd => h d (List.mem_cons_of_mem b hd)

theorem mem_le_foldl_max {c : ℚ} {l : List ℚ} (hc : c ∈ l) (a : ℚ) :
    c ≤ l.foldl max a := by
  induction l generalizing a with
  | nil => cases hc
  | cons b t ih =>
      simp only [List.foldl_cons]
      rcases List.mem_cons.mp hc with h | h
      · subst h
        exact le_trans (le_max_right a c) (le_foldl_max (max a c) t)
      · exact ih h (max a b)

theorem Vec.toList_eq (v : Vec) (m : Nat) (hm : v.n = m + 1) :
    v.toList = v.entry 0 :: (List.range m).map fun i => v.entry (i + 1) := by
  unfold Vec.toList
  rw [hm, List.range_succ_eq_map]
  simp [List.map_map, Function.comp_def]

theorem Vec.minVal_eq_entry_zero (v : Vec) (m : Nat) (hm : v.n = m + 1)
    (h : ∀ i, v.entry 0 ≤ v.entry i) : v.minVal = v.entry 0 := by
  unfold Vec.minVal
  rw [Vec.toList_eq v m hm]
  exact foldl_min_eq_left fun b hb => by
    rcases List.mem_map.mp hb with ⟨i, _, rfl⟩
    exact h (i + 1)

theorem Vec.maxVal_eq (v : Vec) (m : Nat) (hm : v.n = m + 1) (c : ℚ)
    (hb : ∀ i, i < v.n → v.entry i ≤ c) (hc : ∃ i, i < v.n ∧ v.entry i = c) :
    v.maxVal = c := by
  unfold Vec.maxVal
  rw [Vec.toList_eq v m hm]
  apply le_antisymm
  · refine foldl_max_le (hb 0 (by omega)) fun b hbm => ?_
    rcases List.mem_map.mp hbm with ⟨i, hi, rfl⟩
    exact hb (i + 1) (by have := List.mem_range.mp hi; omega)
  · rcases hc with ⟨i, hi, hie⟩
    rcases Nat.eq_zero_or_pos i with h0 | hpos
    · subst h0
      rw [← hie]
      exact le_foldl_max _ _
    · rw [← hie]
      refine mem_le_foldl_max ?_ _
      exact List.mem_map.mpr ⟨i - 1, List.mem_range.mpr (by omega),
        by congr 1; omega⟩

theorem linspace_mem {a b : ℚ} {m : Nat} (hab : a ≤ b) (hm : 2 ≤ m) {i : Nat}
    (hi : i ≤ m - 1) :
    a ≤ (linspace a b m).entry i ∧ (linspace a b m).entry i ≤ b := by
  have hm' : (2:ℚ) ≤ (m:ℚ) := by exact_mod_cast hm
  have hd : (0:ℚ) < (m:ℚ) - 1 := by linarith
  have hiq : (i:ℚ) ≤ (m:ℚ) - 1 := by
    have h1 : (i:ℚ) ≤ ((m - 1 : Nat):ℚ) := by exact_mod_cast hi
    rw [Nat.cast_sub (by omega)] at h1
    simpa using h1
  have hba : (0:ℚ) ≤ b - a := sub_nonneg.mpr hab
  constructor
  · show a ≤ a + (b - a) * i / ((m:ℚ) - 1)
    have : (0:ℚ) ≤ (b - a) * i / ((m:ℚ) - 1) := by positivity
    linarith
  · show a + (b - a) * i / ((m:ℚ) - 1) ≤ b
    have key : (b - a) * i / ((m:ℚ) - 1) ≤ b - a := by
      rw [div_le_iff hd]
      nlinarith
    linarith

theorem Sim.num_signal_eq : Sim.num_signal = 100 := by
  have h : Sim.SNR * (Sim.num_series : ℚ) = ((100:ℤ):ℚ) := by
    norm_num [Sim.SNR, Sim.num_series]
  unfold Sim.num_signal
  rw [h, round_intCast]
  rfl

theorem Sim.x_entry (p : SimParams) (i : Nat) :
    (Sim.x p).entry i = 4 * p.pi * i / 99 := by
  simp only [Sim.x, linspace, Sim.num_points]
  norm_num

theorem Sim.walkY_entry (p : SimParams) (i j : Nat) :
    (Sim.walkY p).entry i j = ∑ k ∈ Finset.range (j + 1), p.walkNoise i k := rfl

theorem Sim.Y_entry (p : SimParams) (i j : Nat) :
    (Sim.Y p).entry i j =
      if 900 ≤ i then Sim.signalRows p (i - 900) j
      else (Sim.walkY p).entry i j := by
  simp only [Sim.Y, Mat.setLastRows]
  have hr : (Sim.walkY p).rows = 1000 := rfl
  rw [hr, Sim.num_signal_eq]

theorem Sim.x_entry_zero (p : SimParams) : (Sim.x p).entry 0 = 0 := by
  rw [Sim.x_entry]
  norm_num

theorem Sim.x_entry_last (p : SimParams) : (Sim.x p).entry 99 = 4 * p.pi := by
  rw [Sim.x_entry, mul_div_assoc]
  norm_num

theorem Sim.x_min (p : SimParams) (hpi : 0 ≤ p.pi) : (Sim.x p).minVal = 0 := by
  have h := Vec.minVal_eq_entry_zero (Sim.x p) 99 rfl fun i => by
    rw [Sim.x_entry, Sim.x_entry]
    have h0 : (0:ℚ) ≤ 4 * p.pi * i / 99 := by positivity
    simpa using h0
  rw [h, Sim.x_entry_zero]

theorem Sim.x_max (p : SimParams) (hpi : 0 ≤ p.pi) :
    (Sim.x p).maxVal = 4 * p.pi := by
  refine Vec.maxVal_eq (Sim.x p) 99 rfl (4 * p.pi) (fun i hi => ?_)
    ⟨99, by show 99 < 100; omega, Sim.x_entry_last p⟩
  rw [Sim.x_entry]
  have hin : i < 100 := hi
  have hiq : (i:ℚ) ≤ 99 := by exact_mod_cast Nat.lt_succ_iff.mp hin
  rw [div_le_iff (by norm_num : (0:ℚ) < 99)]
  nlinarith

theorem Sim.x_fine_eq (p : SimParams) (hpi : 0 ≤ p.pi) :
    Sim.x_fine p = linspace 0 (4 * p.pi) 800 := by
  unfold Sim.x_fine
  rw [Sim.x_min p hpi, Sim.x_max p hpi]
  rfl

/-! ## The claims -/

/-- C3: the map cell instantiates exactly one map widget, with the fixed
center `[39.4948, -108.5492]` and zoom level `12`, and passes exactly the two
hard-coded remote raster URLs to the split-map helper; those two `.tif` URLs
are the only remote raster resources referenced anywhere in the repository's
code. -/
theorem C3_map_cell :
    notebookCount "leafmap.Map(" = 1 ∧
    cellsMentioningSub "leafmap.Map(" = [10] ∧
    cell10.mentionsSub
      "leafmap.Map(height=600, center=[39.4948, -108.5492], zoom=12)" = true ∧
    notebookCount "split_map" = 1 ∧
    cell10.mentionsSub "m.split_map(url, url2)" = true ∧
    rasterRefs =
      [(10, "url = \"https://github.com/opengeos/data/releases/download/raster/Libya-2023-07-01.tif\""),
       (10, "url2 = \"https://github.com/opengeos/data/releases/download/raster/Libya-2023-09-13.tif\"")] ∧
    notebookCount ".tif" = 2 := by
  refine ⟨by decide, by decide, by decide, by decide, by decide, by decide,
    by decide⟩

/-- C4: the combined chart reads exactly the four car attributes, the scatter
encoding them as x, y, size and (conditional categorical) color; `source` is
assigned exactly once in the whole notebook (by `data.cars()`), is never
subscript-assigned or method-mutated, and is mentioned in no other cell. -/
theorem C4_chart_encodings :
    chartAttrs = ["Horsepower", "Miles_per_Gallon", "Acceleration", "Origin"] ∧
    pointsEncodings.map Prod.fst = ["x", "y", "size", "color"] ∧
    ((pointsEncodings ++ barsEncodings).map fun ce => encAttrs ce.2).flatten =
      ["Horsepower", "Miles_per_Gallon", "Acceleration", "Origin", "Origin",
       "Origin", "Origin"] ∧
    cell1.mentionsSub "source = data.cars()" = true ∧
    cell1.mentionsSub "x=\"Horsepower:Q\"" = true ∧
    cell1.mentionsSub "y=\"Miles_per_Gallon:Q\"" = true ∧
    cell1.mentionsSub "size=\"Acceleration\"" = true ∧
    cell1.mentionsSub
      "color=alt.condition(brush, \"Origin:N\", alt.value(\"lightgray\"))" = true ∧
    ((notebookCells.map fun c =>
        (c.lines.map assignTargetsLine).flatten).flatten.filter
      fun t => t == "source").length = 1 ∧
    notebookCount "source[" = 0 ∧
    notebookCount "source." = 0 ∧
    (notebookCells.map fun c => c.mentionsCodeIdent "source") =
      [false, true, false, false, false, false, false, false, false, false,
       false, false] := by
  refine ⟨by decide, by decide, by decide, by decide, by decide, by decide,
    by decide, by decide, by decide, by decide, by decide, by decide⟩

/-- C5: no code cell contains any error-handling construct (`try`, `except`,
`finally`, `raise`, retry or fallback logic); and in the modelled sequential
execution of cells, the first exception a cell raises is returned at top
level unhandled, with no recovery and no rollback. -/
theorem C5_no_error_handling :
    (∀ c ∈ notebookCells, c.ctype = CellType.code →
      c.hasErrorHandling = false) ∧
    ∀ (σ ε : Type) (pre post : List (σ → Except ε σ)) (e : σ → Except ε σ)
      (s s1 : σ) (err : ε),
      runCells pre s = Except.ok s1 → e s1 = Except.error err →
      runCells (pre ++ e :: post) s = Except.error err := by
  constructor
  · decide
  · intro σ ε pre post e s s1 err hpre he
    induction pre generalizing s with
    | nil =>
        cases hpre
        simp only [List.nil_append, runCells, he]
    | cons f t ih =>
        rw [List.cons_append]
        simp only [runCells] at hpre ⊢
        cases hf : f s with
        | ok s2 =>
            rw [hf] at hpre
            exact ih s2 hpre
        | error er =>
            rw [hf] at hpre
            exact Except.noConfusion hpre

/-- Witness for C5: the chart cell is a handler-free code cell, and a
concrete two-cell run whose second cell raises ends in that error. -/
theorem C5_witness :
    cell1.hasErrorHandling = false ∧
    runCells
      [fun s => Except.ok (s + 1), fun _ => (Except.error 7 : Except Nat Nat)]
      0 = Except.error 7 :=
  ⟨C5_no_error_handling.1 cell1 (by decide) rfl,
   C5_no_error_handling.2 Nat Nat [fun s => Except.ok (s + 1)] []
     (fun _ => Except.error 7) 0 1 7 rfl rfl⟩

/-- C6 counterexample: later cells do perform work on data produced by
earlier cells: the histogram cell 8 consumes `x_fine` (and `y_fine`)
assigned in the data cell 6, so the cross-cell dependency list is not
empty. -/
theorem C6_counterexample :
    crossCellDeps ≠ [] ∧
    (6, 8, "x_fine") ∈ crossCellDeps ∧
    cell6.assignTargets.contains "x_fine" = true ∧
    cell8.mentionsCodeIdent "x_fine" = true := by
  refine ⟨by decide, by decide, by decide, by decide⟩

/-- C6 amended: the cross-cell data dependencies are exactly: the display
cell 3 renders `points` and `bars` built in cell 1, and the histogram cell 8
bins `x_fine` and `y_fine` produced in cell 6; each flows from an earlier to
a later cell, so notebook execution order is the only ordering mechanism. -/
theorem C6_amended :
    crossCellDeps =
      [(1, 3, "points"), (1, 3, "bars"), (6, 8, "x_fine"),
       (6, 8, "y_fine")] ∧
    (crossCellDeps.all fun d => decide (d.1 < d.2.1)) = true := by
  refine ⟨by decide, by decide⟩

/-- C7: exactly two cells carry the `# | label:` output-label tag — cell 3
(`horsepower`) and cell 8 (`plasma`), both code cells — and the markdown
cross-reference `(#horsepower)` in cell 5 refers to a label defined on a
cell of this notebook. -/
theorem C7_labels :
    labelledCells = [(3, "horsepower"), (8, "plasma")] ∧
    cell3.ctype = CellType.code ∧
    cell8.ctype = CellType.code ∧
    cell5.ctype = CellType.markdown ∧
    cell5.mentionsSub "(#horsepower)" = true ∧
    (labelledCells.map Prod.snd).contains "horsepower" = true := by
  refine ⟨by decide, by decide, by decide, by decide, by decide, by decide⟩

/-- C2: the simulated dataset is 1000 series of 100 samples (`Y` is
1000 × 100), and after interpolation each series has 800 points (`y_fine`
before flattening is 1000 × 800); the random draws happen in exactly one
cell, and none of `Y`, `x_fine`, `y_fine` is mentioned by any cell after
the histogram cell 8. -/
theorem C2_dataset_shape :
    Sim.num_series = 1000 ∧ Sim.num_points = 100 ∧ Sim.num_fine = 800 ∧
    (∀ p : SimParams,
      (Sim.Y p).rows = 1000 ∧ (Sim.Y p).cols = 100 ∧
      (Sim.y_fine_mat p).rows = 1000 ∧ (Sim.y_fine_mat p).cols = 800) ∧
    cellsMentioningSub "np.random.randn" = [6] ∧
    ((notebookCells.enum.filter fun ic => decide (8 < ic.1)).all fun ic =>
      !(ic.2.mentionsCodeIdent "Y" || ic.2.mentionsCodeIdent "x_fine" ||
        ic.2.mentionsCodeIdent "y_fine")) = true :=
  ⟨rfl, rfl, rfl, fun _ => ⟨rfl, rfl, rfl, rfl⟩, by decide, by decide⟩

/-- C8: `num_signal = round(0.10 * 1000) = 100`; the slice assignment
replaces exactly the last 100 rows (rows 900..999), and every earlier row
still equals the cumulative sum of its Gaussian draws. -/
theorem C8_overwrite_frame :
    Sim.num_signal = 100 ∧ Sim.num_series - Sim.num_signal = 900 ∧
    (∀ (p : SimParams) (i j : Nat), i < Sim.num_series - Sim.num_signal →
      (Sim.Y p).entry i j = ∑ k ∈ Finset.range (j + 1), p.walkNoise i k) ∧
    (∀ (p : SimParams) (i j : Nat), Sim.num_series - Sim.num_signal ≤ i →
      (Sim.Y p).entry i j =
        Sim.signalRows p (i - (Sim.num_series - Sim.num_signal)) j) := by
  have h900 : Sim.num_series - Sim.num_signal = 900 := by
    rw [Sim.num_signal_eq]
    rfl
  refine ⟨Sim.num_signal_eq, h900, fun p i j hi => ?_, fun p i j hi => ?_⟩
  · rw [h900] at hi
    rw [Sim.Y_entry, if_neg (by omega), Sim.walkY_entry]
  · rw [h900] at hi
    rw [h900, Sim.Y_entry, if_pos hi]

/-- Witness for C8: with every draw equal to 1, the untouched row 899 holds
the cumulative sum 4 at sample 3, and the overwritten row 900 holds
`sqrt 0 * (...) = 0` at sample 0. -/
theorem C8_witness :
    (Sim.Y demoParams).entry 899 3 = 4 ∧
    (Sim.Y demoParams).entry 900 0 = 0 := by
  constructor
  · rw [C8_overwrite_frame.2.2.1 demoParams 899 3
      (by have h := C8_overwrite_frame.2.1; omega)]
    norm_num [Finset.sum_range_succ, demoParams]
  · rw [C8_overwrite_frame.2.2.2 demoParams 900 0
      (by have h := C8_overwrite_frame.2.1; omega), C8_overwrite_frame.2.1]
    norm_num [Sim.signalRows, Sim.phi, demoParams]

/-- C9: at the `histogram2d` call the flattened arrays have equal length
`num_series * num_fine = 800000`, entry `k` of the x array pairing with entry
`k` of the y array; and the length equality holds by construction for any
row count, any grid and any row-filling function. -/
theorem C9_flat_lengths :
    (∀ p : SimParams,
      (Sim.x_fine_flat p).n = (Sim.y_fine p).n ∧
      (Sim.y_fine p).n = Sim.num_series * Sim.num_fine ∧
      Sim.num_series * Sim.num_fine = 800000 ∧
      ∀ k : Nat,
        (Sim.x_fine_flat p).entry k = (Sim.x_fine p).entry (k % 800) ∧
        (Sim.y_fine p).entry k =
          (Sim.y_fine_mat p).entry (k / 800) (k % 800)) ∧
    ∀ (a b : ℚ) (ns nf : Nat) (f : Nat → Nat → ℚ),
      ((repmat (linspace a b nf) ns).flatten).n =
        ((Mat.mk ns nf f).flatten).n ∧
      ((Mat.mk ns nf f).flatten).n = ns * nf :=
  ⟨fun _ => ⟨rfl, rfl, rfl, fun _ => ⟨rfl, rfl⟩⟩, fun _ _ _ _ _ => ⟨rfl, rfl⟩⟩

/-- C10: every interpolation query lies inside the sampled domain:
`x.min() = 0` and `x.max() = 4π`, every element of `x_fine` lies in the
closed interval `[0, 4π]`, and `np.interp`'s extrapolation/clamping branch
is unreachable at every query point. -/
theorem C10_interp_in_domain (p : SimParams) (hpi : 0 ≤ p.pi) :
    (Sim.x p).minVal = 0 ∧ (Sim.x p).maxVal = 4 * p.pi ∧
    ∀ k < Sim.num_fine,
      0 ≤ (Sim.x_fine p).entry k ∧ (Sim.x_fine p).entry k ≤ 4 * p.pi ∧
      ¬ interpExtrapolates ((Sim.x_fine p).entry k) (Sim.x p) := by
  refine ⟨Sim.x_min p hpi, Sim.x_max p hpi, fun k hk => ?_⟩
  have hk800 : k < 800 := hk
  have hb := @linspace_mem 0 (4 * p.pi) 800 (by linarith) (by norm_num)
    k (by omega)
  rw [Sim.x_fine_eq p hpi]
  refine ⟨hb.1, hb.2, ?_⟩
  rintro (hlt | hgt)
  · rw [Sim.x_entry_zero] at hlt
    linarith [hb.1]
  · have hgt' : (Sim.x p).entry 99 < (linspace 0 (4 * p.pi) 800).entry k := hgt
    rw [Sim.x_entry_last] at hgt'
    linarith [hb.2]

/-- Witness for C10 at the concrete parameters (`pi = 355/113 ≥ 0`). -/
theorem C10_witness :
    0 ≤ demoParams.pi ∧
    ((Sim.x demoParams).minVal = 0 ∧
     (Sim.x demoParams).maxVal = 4 * demoParams.pi ∧
     ∀ k < Sim.num_fine,
       0 ≤ (Sim.x_fine demoParams).entry k ∧
       (Sim.x_fine demoParams).entry k ≤ 4 * demoParams.pi ∧
       ¬ interpExtrapolates ((Sim.x_fine demoParams).entry k)
         (Sim.x demoParams)) :=
  ⟨by norm_num [demoParams], C10_interp_in_domain demoParams (by norm_num [demoParams])⟩

/-- C1 counterexample: the data generation does not consist exactly of
(i) cumulative sums, (ii) interpolation, (iii) histogram binning: with every
draw equal to 1 (and any model of `sqrt` sending 0 to 0), row 999 of the
matrix that gets interpolated holds 0 at sample 0 — not the cumulative sum,
which is 1 — because the sinusoidal overwrite step replaced it. -/
theorem C1_counterexample :
    ¬ ∀ (p : SimParams), p.sqrt 0 = 0 →
        ∀ i < Sim.num_series, ∀ j < Sim.num_points,
          (Sim.Y p).entry i j =
            ∑ k ∈ Finset.range (j + 1), p.walkNoise i k := by
  intro hall
  have h1 := hall demoParams rfl 999 (by decide) 0 (by decide)
  rw [Sim.Y_entry, if_pos (by omega)] at h1
  have h2 : Sim.signalRows demoParams (999 - 900) 0 = 0 := by
    norm_num [Sim.signalRows, Sim.phi, demoParams]
  have h3 : ∑ k ∈ Finset.range (0 + 1), demoParams.walkNoise 999 k = 1 := by
    norm_num [Finset.sum_range_succ, demoParams]
  rw [h2, h3] at h1
  exact absurd h1 (by norm_num)

/-- C1 amended: the histogram data generation is a fixed single pass of:
(i) forming the 1000 series as cumulative sums of Gaussian draws, then
overwriting the last 100 series with RMS-scaled noisy sinusoids, (ii)
interpolating every series onto the 800-point grid, and (iii) binning the
flattened point cloud with a 2D histogram; cumsum, interp and histogram2d
each appear in exactly one cell, and none of the arrays is mentioned by any
cell after the histogram cell. -/
theorem C1_generation_pipeline :
    (∀ (p : SimParams) (i j : Nat), i < 900 →
      (Sim.Y p).entry i j = ∑ k ∈ Finset.range (j + 1), p.walkNoise i k) ∧
    (∀ (p : SimParams) (i j : Nat), 900 ≤ i →
      (Sim.Y p).entry i j =
        p.sqrt j *
          (p.sin ((Sim.x p).entry j - p.pi / 8 * p.phiNoise (i - 900)) +
            0.05 * p.sigNoise (i - 900) j)) ∧
    (∀ (p : SimParams) (i k : Nat),
      (Sim.y_fine_mat p).entry i k =
        interp ((Sim.x_fine p).entry k) (Sim.x p)
          fun j => (Sim.Y p).entry i j) ∧
    (Sim.h = fun p => histogram2d (Sim.x_fine_flat p) (Sim.y_fine p) 400 100) ∧
    cellsMentioningSub "np.cumsum" = [6] ∧ notebookCount "np.cumsum" = 1 ∧
    cellsMentioningSub "np.interp" = [6] ∧ notebookCount "np.interp" = 1 ∧
    cellsMentioningSub "np.histogram2d" = [8] ∧
    notebookCount "np.histogram2d" = 1 ∧
    ((notebookCells.enum.filter fun ic => decide (8 < ic.1)).all fun ic =>
      !(ic.2.mentionsCodeIdent "Y" || ic.2.mentionsCodeIdent "x_fine" ||
        ic.2.mentionsCodeIdent "y_fine")) = true := by
  refine ⟨fun p i j hi => ?_, fun p i j hi => ?_, fun p i k => rfl, rfl,
    by decide, by decide, by decide, by decide, by decide, by decide,
    by decide⟩
  · rw [Sim.Y_entry, if_neg (by omega), Sim.walkY_entry]
  · rw [Sim.Y_entry, if_pos hi]
    rfl

/-- Witness for the amended C1: with every draw equal to 1, the cumulative
sum gives 2 at row 0, sample 1, and the overwritten row 999 holds 0 at
sample 0. -/
theorem C1_witness :
    (Sim.Y demoParams).entry 0 1 = 2 ∧
    (Sim.Y demoParams).entry 999 0 = 0 := by
  constructor
  · rw [C1_generation_pipeline.1 demoParams 0 1 (by decide)]
    norm_num [Finset.sum_range_succ, demoParams]
  · rw [C1_generation_pipeline.2.1 demoParams 999 0 (by decide)]
    norm_num [demoParams]
